import Mathlib

/-!
Shallow embedding of `src/api.py` — a FastAPI proxy exposing `POST /chat`
over an Azure OpenAI chat-completion client — together with theorems
settling the frozen claims about it.

The Python runtime behaviour that matters here (attribute access on the
wrong object class, dict-key membership, truthiness, `str()`/`repr()`,
exception flow through `try`/`except`) is modelled explicitly: exceptions
are `Except PyExc`, and dynamic values are a small `PyVal` type with a
Python-faithful `getattr` (a `list` or `dict` object has no data
attributes, so accessing one raises `AttributeError`).
-/

namespace ChatbotV1

/-- A raised Python exception, as the `except` clauses of the source
observe it: `type` is `type(e).__name__`, `msg` is `str(e)`. -/
structure PyExc where
  type : String
  msg : String

/-- A Python computation that either returns normally or raises. -/
abbrev Py (α : Type) : Type := Except PyExc α

/-- The Python runtime values flowing through this program: `None`,
booleans, integers, strings, lists, dicts with string keys, and plain data
objects (a class name plus named attributes). -/
inductive PyVal where
  | none : PyVal
  | bool : Bool → PyVal
  | int : Int → PyVal
  | str : String → PyVal
  | list : List PyVal → PyVal
  | dict : List (String × PyVal) → PyVal
  | obj : String → List (String × PyVal) → PyVal

/-- A single-quote character, written via its code point. -/
def sq : String := String.singleton (Char.ofNat 39)

/-- The Python class name of a value (`type(x).__name__`). -/
def pyTypeName : PyVal → String
  | PyVal.none => "NoneType"
  | PyVal.bool _ => "bool"
  | PyVal.int _ => "int"
  | PyVal.str _ => "str"
  | PyVal.list _ => "list"
  | PyVal.dict _ => "dict"
  | PyVal.obj cls _ => cls

/-- The message of the `AttributeError` Python raises for `x.name` when
`type(x)` has no attribute `name`. -/
def noAttrMsg (cls name : String) : String :=
  sq ++ cls ++ sq ++ " object has no attribute " ++ sq ++ name ++ sq

/-- Python attribute access `x.name` for the value shapes of this program:
data objects expose their attributes; `list`, `dict`, `str`, `int`, `bool`
and `None` expose none of the attribute names this program accesses
(`choices`, `message`, `content`, `to_json`, `completion`), so the access
raises `AttributeError` naming the receiver's class. -/
def getattr : PyVal → String → Py PyVal
  | PyVal.obj cls attrs, name =>
    match attrs.lookup name with
    | some v => Except.ok v
    | Option.none => Except.error ⟨"AttributeError", noAttrMsg cls name⟩
  | v, name => Except.error ⟨"AttributeError", noAttrMsg (pyTypeName v) name⟩

/-- Python subscription `xs[i]` with a non-negative index. -/
def pyIndex : PyVal → Nat → Py PyVal
  | PyVal.list xs, i =>
    match xs[i]? with
    | some v => Except.ok v
    | Option.none => Except.error ⟨"IndexError", "list index out of range"⟩
  | v, _ => Except.error ⟨"TypeError", sq ++ pyTypeName v ++ sq ++ " object is not subscriptable"⟩

/-- Calling a value with no arguments (`x()`): none of the value shapes in
this model is callable, so the call raises `TypeError`.  The only call site
is the `to_json()` of src/api.py:113, whose receiver — when the attribute
lookup producing it does not already raise — is never a callable. -/
def pyCall0 (v : PyVal) : Py PyVal :=
  Except.error ⟨"TypeError", sq ++ pyTypeName v ++ sq ++ " object is not callable"⟩

/-- Python truthiness of a value (`if x:`). -/
def pyTruthy : PyVal → Bool
  | PyVal.none => false
  | PyVal.bool b => b
  | PyVal.int n => decide (n ≠ 0)
  | PyVal.str s => s != ""
  | PyVal.list xs => !xs.isEmpty
  | PyVal.dict fs => !fs.isEmpty
  | PyVal.obj _ _ => true

/-- Python membership `key in x` for a string key (the source only tests
`"error" in response`): key lookup for a dict, element equality for a
list, substring for a str; every other class is not iterable and the test
raises `TypeError`. -/
def pyContainsKey (key : String) : PyVal → Py Bool
  | PyVal.dict fs => Except.ok (fs.any fun p => p.1 == key)
  | PyVal.list xs => Except.ok (xs.any fun v =>
      match v with
      | PyVal.str t => t == key
      | _ => false)
  | PyVal.str s => Except.ok (decide (2 ≤ (s.splitOn key).length))
  | v => Except.error ⟨"TypeError",
      "argument of type " ++ sq ++ pyTypeName v ++ sq ++ " is not iterable"⟩

/-- Python `repr` of a string: single-quoted, except double-quoted when the
text contains a single quote and no double quote.  (The escaping of quotes
inside a string that contains both kinds never arises for the strings this
program prints and is not modelled.) -/
def pyStrRepr (s : String) : String :=
  if s.contains (Char.ofNat 39) && !s.contains (Char.ofNat 34)
  then "\"" ++ s ++ "\"" else sq ++ s ++ sq

mutual

/-- Python `repr` of a value, as `str` falls back to it for non-strings:
dicts render as \x7bkey: value, ...\x7d with repr-quoted strings.  Data
objects of the SDK render with an angle-bracket form; their exact `repr`
is never printed by the source and is not load-bearing. -/
def pyRepr : PyVal → String
  | PyVal.none => "None"
  | PyVal.bool b => cond b "True" "False"
  | PyVal.int n => toString n
  | PyVal.str s => pyStrRepr s
  | PyVal.list xs => "[" ++ pyReprElems xs ++ "]"
  | PyVal.dict fs => "\x7b" ++ pyReprFields fs ++ "\x7d"
  | PyVal.obj cls _ => "<" ++ cls ++ " object>"

/-- Comma-separated `repr`s of the elements of a list. -/
def pyReprElems : List PyVal → String
  | [] => ""
  | [x] => pyRepr x
  | x :: y :: xs => pyRepr x ++ ", " ++ pyReprElems (y :: xs)

/-- Comma-separated `key: value` renderings of the entries of a dict. -/
def pyReprFields : List (String × PyVal) → String
  | [] => ""
  | [(k, v)] => pyStrRepr k ++ ": " ++ pyRepr v
  | (k, v) :: f :: fs => pyStrRepr k ++ ": " ++ pyRepr v ++ ", " ++ pyReprFields (f :: fs)

end

/-- Python `str(x)`: the text itself for a `str`, `repr` otherwise (true
for every class occurring in this program). -/
def pyStr : PyVal → String
  | PyVal.str s => s
  | v => pyRepr v

/-- One `\x7b"type": "text", "text": ...\x7d` content block of a message
(src/api.py:123-136). -/
structure ContentPart where
  type : String
  text : String

/-- One entry of the `messages` list `_build_messages` returns: a role
paired with its content blocks. -/
structure Message where
  role : String
  content : List ContentPart

/-- The `params` dict built at src/api.py:100-110 and passed to
`self.client.chat.completions.create(**params)`.  The numeric knobs carry
the literal numbers of the source as rationals (no arithmetic is ever
performed on them); an `Option` value of `none` is Python `None`. -/
structure Params where
  model : String
  messages : List Message
  max_tokens : Option Int
  temperature : Option Rat
  top_p : Option Rat
  frequency_penalty : Option Rat
  presence_penalty : Option Rat
  stop : Option (List String)
  stream : Option Bool

/-- The `**kwargs` of `create_chat_completion` (src/api.py:84): for each
knob, the outer `Option` records whether the keyword is present in the
call (`none` = key absent, so `kwargs.get` falls back to its default), and
the inner value is the argument itself, which may be Python `None`. -/
structure Kwargs where
  max_tokens : Option (Option Int) := Option.none
  temperature : Option (Option Rat) := Option.none
  top_p : Option (Option Rat) := Option.none
  frequency_penalty : Option (Option Rat) := Option.none
  presence_penalty : Option (Option Rat) := Option.none
  stop : Option (Option (List String)) := Option.none
  stream : Option (Option Bool) := Option.none

/-- The fixed default persona text of src/api.py:130. -/
def defaultSystemText : String :=
  "You are an AI assistant that helps people find information."

/-- Python truthiness of an optional string (`if system_message:` at
src/api.py:122): `None` and the empty string are falsy, every other
string is truthy. -/
def pyTruthyOptStr : Option String → Bool
  | Option.none => false
  | some s => s != ""

/-- `ChatAPI._build_messages` (src/api.py:118-138): start from the empty
list, append one system entry (the given text when truthy, the default
persona otherwise), then append the user entry. -/
def build_messages (user_message : String) (system_message : Option String) : List Message :=
  let messages : List Message := []
  let messages :=
    if pyTruthyOptStr system_message then
      messages ++ [{ role := "system",
                     content := [{ type := "text", text := system_message.getD "" }] }]
    else
      messages ++ [{ role := "system",
                     content := [{ type := "text", text := defaultSystemText }] }]
  messages ++ [{ role := "user", content := [{ type := "text", text := user_message }] }]

/-- The `params` dict literal of src/api.py:100-110: `kwargs.get(k, d)` is
the present value when the key is in `kwargs`, the default `d` otherwise
(`kwargs.get("stop")` defaults to `None`). -/
def mkParams (deployment : String) (messages : List Message) (kwargs : Kwargs) : Params :=
  { model := deployment
    messages := messages
    max_tokens := kwargs.max_tokens.getD (some 800)
    temperature := kwargs.temperature.getD (some (7 / 10 : Rat))
    top_p := kwargs.top_p.getD (some (95 / 100 : Rat))
    frequency_penalty := kwargs.frequency_penalty.getD (some 0)
    presence_penalty := kwargs.presence_penalty.getD (some 0)
    stop := kwargs.stop.getD Option.none
    stream := kwargs.stream.getD (some false) }

/-- The parameter record as the spec words it (§4.2 step 3 with §3's
defaults): the target model identifier, the assembled message list, and
the generation knobs exactly as supplied, substituting the defaults 800,
0.7, 0.95, 0, 0, absent, false for any knob not supplied.  Written from
the spec's words, to be compared with `mkParams` (written from the
source). -/
def specParams (modelId : String) (messages : List Message) (kwargs : Kwargs) : Params :=
  { model := modelId
    messages := messages
    max_tokens := kwargs.max_tokens.getD (some 800)
    temperature := kwargs.temperature.getD (some (7 / 10 : Rat))
    top_p := kwargs.top_p.getD (some (95 / 100 : Rat))
    frequency_penalty := kwargs.frequency_penalty.getD (some 0)
    presence_penalty := kwargs.presence_penalty.getD (some 0)
    stop := kwargs.stop.getD Option.none
    stream := kwargs.stream.getD (some false) }

/-- The error record built by the `except` clause of
`create_chat_completion` (src/api.py:116):
`\x7b"error": str(e), "type": type(e).__name__\x7d`. -/
def errDict (e : PyExc) : PyVal :=
  PyVal.dict [("error", PyVal.str e.msg), ("type", PyVal.str e.type)]

/-- src/api.py:113 — `json.loads(completion.choices.message.content.to_json())`.
The attribute chain is evaluated left to right: `completion.choices`
retrieves the choices list, and the following `.message` access is
performed on that *list* object, raising `AttributeError` on every
SDK-shaped response; the later steps (`.content`, `.to_json()` and the
surrounding `json.loads`, the latter modelled by the external-library
parameter `jl`) are dead code on such responses. -/
def extract_response (jl : PyVal → Py PyVal) (completion : PyVal) : Py PyVal := do
  let choices ← getattr completion "choices"
  let message ← getattr choices "message"
  let content ← getattr message "content"
  let toJson ← getattr content "to_json"
  let jsonText ← pyCall0 toJson
  jl jsonText

/-- The state a constructed `ChatAPI` instance holds (src/api.py:33-44):
the endpoint, deployment and API version read from the environment, and
the upstream client, modelled by the behaviour of its
`chat.completions.create` call. -/
structure ChatAPIState where
  endpoint : String
  deployment : String
  api_version : String
  client : Params → Py PyVal

/-- The `try` block of `ChatAPI.create_chat_completion`
(src/api.py:97-113): build the messages, build the params dict, invoke the
upstream client, extract the reply. -/
def create_body (api : ChatAPIState) (jl : PyVal → Py PyVal)
    (user_message : String) (system_message : Option String) (kwargs : Kwargs) : Py PyVal := do
  let messages := build_messages user_message system_message
  let params := mkParams api.deployment messages kwargs
  let completion ← api.client params
  extract_response jl completion

/-- `ChatAPI.create_chat_completion` (src/api.py:80-116): the `try` body,
with `except Exception as e` mapping any raised exception to the dict
`\x7b"error": str(e), "type": type(e).__name__\x7d`. -/
def create_chat_completion (api : ChatAPIState) (jl : PyVal → Py PyVal)
    (user_message : String) (system_message : Option String) (kwargs : Kwargs) : PyVal :=
  match create_body api jl user_message system_message kwargs with
  | Except.ok v => v
  | Except.error e => errDict e

/-- `ChatRequest` (src/api.py:22-31) after pydantic validation: `None`
for an optional value is the inner `Option.none`. -/
structure ChatRequest where
  user_message : String
  system_message : Option String := Option.none
  max_tokens : Option Int := some 800
  temperature : Option Rat := some (7 / 10 : Rat)
  top_p : Option Rat := some (95 / 100 : Rat)
  frequency_penalty : Option Rat := some 0
  presence_penalty : Option Rat := some 0
  stop : Option (List String) := Option.none
  stream : Option Bool := some false

/-- The keyword arguments `chat_endpoint` passes to
`create_chat_completion` (src/api.py:157-167): every knob key present,
carrying the validated request's value. -/
def kwargsOfRequest (r : ChatRequest) : Kwargs :=
  { max_tokens := some r.max_tokens
    temperature := some r.temperature
    top_p := some r.top_p
    frequency_penalty := some r.frequency_penalty
    presence_penalty := some r.presence_penalty
    stop := some r.stop
    stream := some r.stream }

/-- What a request to the HTTP boundary produces: a 200 response with a
body, or an HTTP error with a status code and a `detail` payload. -/
inductive HttpOutcome where
  | ok : PyVal → HttpOutcome
  | httpError : Nat → PyVal → HttpOutcome

/-- `chat_endpoint` (src/api.py:143-179).  The `try` block calls
`create_chat_completion`; on `"error" in response` it raises
`HTTPException(500, detail=response)` — `HTTPException` is an `Exception`,
so the function's own blanket `except Exception` catches it, and starlette
renders `str(e)` as `f"\x7bstatus_code\x7d: \x7bdetail\x7d"`.  Otherwise
it evaluates `response.completion.choices[0].message.content if
response.completion.choices else \x7b"message": "No content returned"\x7d`
— an attribute access on the dict `response`.  The `except` clause
re-raises `HTTPException(500, detail=str(e))`. -/
def chat_endpoint (api : ChatAPIState) (jl : PyVal → Py PyVal) (req : ChatRequest) : HttpOutcome :=
  let tryBody : Py PyVal := do
    let response := create_chat_completion api jl req.user_message req.system_message
        (kwargsOfRequest req)
    let hasErr ← pyContainsKey "error" response
    if hasErr then
      Except.error ⟨"HTTPException", "500: " ++ pyStr response⟩
    else do
      let comp ← getattr response "completion"
      let choices ← getattr comp "choices"
      if pyTruthy choices then do
        let c0 ← pyIndex choices 0
        let msg ← getattr c0 "message"
        getattr msg "content"
      else
        Except.ok (PyVal.dict [("message", PyVal.str "No content returned")])
  match tryBody with
  | Except.ok v => HttpOutcome.ok v
  | Except.error e => HttpOutcome.httpError 500 (PyVal.str e.msg)

/-- The JSON body of a `POST /chat` request, field by field.  For the
knobs declared `Optional[...]` in `ChatRequest`, the outer `Option`
records whether the field occurs in the JSON object (`none` = absent) and
the inner value is the field's value, where the inner `none` is JSON
`null`.  `user_message` is declared plain `str`, for which pydantic
accepts exactly the present string values, so it is a single `Option`
(`none` = absent, or present with a non-string value such as `null`). -/
structure RawBody where
  user_message : Option String := Option.none
  system_message : Option (Option String) := Option.none
  max_tokens : Option (Option Int) := Option.none
  temperature : Option (Option Rat) := Option.none
  top_p : Option (Option Rat) := Option.none
  frequency_penalty : Option (Option Rat) := Option.none
  presence_penalty : Option (Option Rat) := Option.none
  stop : Option (Option (List String)) := Option.none
  stream : Option (Option Bool) := Option.none

/-- A pydantic validation failure: the field location and message of the
rejection (FastAPI answers 422 with these in the body). -/
structure ValidationError where
  loc : String
  msg : String

/-- pydantic validation of the `POST /chat` body against `ChatRequest`
(src/api.py:22-31): `user_message : str` is required — a body without a
string there is rejected before the endpoint runs; the model declares no
minimum length, so every string value, the empty string included, is
accepted.  Each `Optional` field takes its declared default when absent. -/
def validate_chat_request (body : RawBody) : Except ValidationError ChatRequest :=
  match body.user_message with
  | Option.none => Except.error ⟨"user_message", "Field required"⟩
  | some u => Except.ok
      { user_message := u
        system_message := body.system_message.getD Option.none
        max_tokens := body.max_tokens.getD (some 800)
        temperature := body.temperature.getD (some (7 / 10 : Rat))
        top_p := body.top_p.getD (some (95 / 100 : Rat))
        frequency_penalty := body.frequency_penalty.getD (some 0)
        presence_penalty := body.presence_penalty.getD (some 0)
        stop := body.stop.getD Option.none
        stream := body.stream.getD (some false) }

/-- The full `POST /chat` route: FastAPI validates the body against
`ChatRequest` (422 on failure) and only then runs `chat_endpoint`. -/
def route_chat (api : ChatAPIState) (jl : PyVal → Py PyVal) (body : RawBody) : HttpOutcome :=
  match validate_chat_request body with
  | Except.error ve => HttpOutcome.httpError 422 (PyVal.str (ve.loc ++ ": " ++ ve.msg))
  | Except.ok req => chat_endpoint api jl req

/-- Whether `os.getenv` yields a usable value for `v`: `if not value:`
(src/api.py:49) is falsy exactly for an unset variable or the empty
string. -/
def envPresentB (env : String → Option String) (v : String) : Bool :=
  match env v with
  | Option.none => false
  | some s => s != ""

/-- `ChatAPI._get_required_env` (src/api.py:46-51). -/
def get_required_env (env : String → Option String) (var_name : String) : Py String :=
  match env var_name with
  | Option.none =>
    Except.error ⟨"ValueError", "Missing required environment variable: " ++ var_name⟩
  | some value =>
    if value = "" then
      Except.error ⟨"ValueError", "Missing required environment variable: " ++ var_name⟩
    else
      Except.ok value

/-- The external SDK calls `ChatAPI._initialize_client` performs, each of
which may raise: `ClientSecretCredential(...)`,
`get_bearer_token_provider(credential, audience)`, and the
`AzureOpenAI(...)` constructor, which yields the client. -/
structure SDKEffects where
  clientSecretCredential : String → String → String → Py Unit
  bearerTokenProvider : String → Py Unit
  azureOpenAI : String → String → Py (Params → Py PyVal)

/-- `ChatAPI._initialize_client` (src/api.py:53-78): read the three
credential variables, perform the SDK calls, and wrap any exception `e`
raised inside the `try` as
`Exception("Failed to initialize Azure OpenAI client: " + str(e))`. -/
def init_client (env : String → Option String) (sdk : SDKEffects)
    (endpoint api_version : String) : Py (Params → Py PyVal) :=
  let body : Py (Params → Py PyVal) := do
    let tenant_id ← get_required_env env "AZURE_TENANT_ID"
    let client_id ← get_required_env env "AZURE_CLIENT_ID"
    let client_secret ← get_required_env env "AZURE_CLIENT_SECRET"
    let _ ← sdk.clientSecretCredential tenant_id client_id client_secret
    let _ ← sdk.bearerTokenProvider "https://cognitiveservices.azure.com/.default"
    sdk.azureOpenAI endpoint api_version
  match body with
  | Except.ok c => Except.ok c
  | Except.error e =>
    Except.error ⟨"Exception", "Failed to initialize Azure OpenAI client: " ++ e.msg⟩

/-- `ChatAPI.__init__` (src/api.py:33-44): the two required variables, the
optional API version with its default, then the client construction. -/
def ChatAPI_init (env : String → Option String) (sdk : SDKEffects) : Py ChatAPIState := do
  let endpoint ← get_required_env env "AZURE_OPENAI_ENDPOINT"
  let deployment ← get_required_env env "AZURE_OPENAI_DEPLOYMENT_NAME"
  let api_version := (env "AZURE_OPENAI_API_VERSION").getD "2025-01-01-preview"
  let client ← init_client env sdk endpoint api_version
  Except.ok { endpoint := endpoint, deployment := deployment,
              api_version := api_version, client := client }

/-- The five required environment variables (spec §4.1/§6). -/
def requiredVars : List String :=
  ["AZURE_OPENAI_ENDPOINT", "AZURE_OPENAI_DEPLOYMENT_NAME",
   "AZURE_TENANT_ID", "AZURE_CLIENT_ID", "AZURE_CLIENT_SECRET"]

/-- An SDK-shaped successful upstream response: a `ChatCompletion` object
whose `choices` attribute is a list of `Choice` objects, each carrying a
`message` object with a string `content` (spec §6, upstream contract). -/
def mkCompletion (contents : List String) : PyVal :=
  PyVal.obj "ChatCompletion"
    [("choices", PyVal.list (contents.map fun c =>
        PyVal.obj "Choice"
          [("message", PyVal.obj "ChatCompletionMessage" [("content", PyVal.str c)])]))]

/-- A constructed `ChatAPI` instance around a given upstream behaviour. -/
def apiWith (client : Params → Py PyVal) : ChatAPIState :=
  { endpoint := "https://example.openai.azure.com"
    deployment := "gpt-4o"
    api_version := "2025-01-01-preview"
    client := client }

/-- The validated request of the spec's example:
`POST /chat` with body `\x7b"user_message": "Hello"\x7d`. -/
def reqHello : ChatRequest := { user_message := "Hello" }

/-- A `POST /chat` body whose `user_message` is the empty string. -/
def bodyEmptyUser : RawBody := { user_message := some "" }

/-- A test double for the upstream client: it raises an exception whose
message is the text of the user-role entry of the message list it was
sent, making the user text that reached the Gateway observable in the
HTTP outcome. -/
def probeClient : Params → Py PyVal := fun p =>
  Except.error ⟨"Probe",
    match p.messages[1]? with
    | some m =>
      match m.content[0]? with
      | some c => c.text
      | Option.none => "?"
    | Option.none => "?"⟩

/-- An environment with every required variable set except
`AZURE_TENANT_ID`. -/
def envNoTenant : String → Option String := fun v =>
  if v = "AZURE_OPENAI_ENDPOINT" then some "https://example.openai.azure.com"
  else if v = "AZURE_OPENAI_DEPLOYMENT_NAME" then some "gpt-4o"
  else if v = "AZURE_CLIENT_ID" then some "client-id"
  else if v = "AZURE_CLIENT_SECRET" then some "client-secret"
  else Option.none

/-- An SDK whose calls all succeed, yielding a client that fails every
upstream call (no live upstream is needed by any claim about startup). -/
def sdkOk : SDKEffects :=
  { clientSecretCredential := fun _ _ _ => Except.ok ()
    bearerTokenProvider := fun _ => Except.ok ()
    azureOpenAI := fun _ _ => Except.ok fun _ => Except.error ⟨"Exception", "no upstream"⟩ }

/-! ### Helper lemmas -/

theorem py_bind_ok {α β : Type} (a : α) (f : α → Py β) :
    (Except.ok a >>= f : Py β) = f a := rfl

theorem py_bind_err {α β : Type} (e : PyExc) (f : α → Py β) :
    ((Except.error e : Py α) >>= f : Py β) = Except.error e := rfl

/-- `_get_required_env` raises `ValueError` naming the variable when it is
unset or empty. -/
theorem get_required_env_err (env : String → Option String) (v : String)
    (h : envPresentB env v = false) :
    get_required_env env v =
      Except.error ⟨"ValueError", "Missing required environment variable: " ++ v⟩ := by
  unfold envPresentB at h
  unfold get_required_env
  cases hv : env v with
  | none => rfl
  | some s =>
    rw [hv] at h
    simp at h
    simp [h]

/-- `_get_required_env` returns the value when the variable is set and
non-empty. -/
theorem get_required_env_ok (env : String → Option String) (v : String)
    (h : envPresentB env v = true) :
    ∃ s, get_required_env env v = Except.ok s := by
  unfold envPresentB at h
  unfold get_required_env
  cases hv : env v with
  | none => rw [hv] at h; cases h
  | some s =>
    rw [hv] at h
    simp at h
    exact ⟨s, by simp [h]⟩

/-- Construction fails on a missing endpoint variable. -/
theorem init_err1 (env : String → Option String) (sdk : SDKEffects)
    (h : envPresentB env "AZURE_OPENAI_ENDPOINT" = false) :
    ChatAPI_init env sdk = Except.error
      ⟨"ValueError", "Missing required environment variable: " ++ "AZURE_OPENAI_ENDPOINT"⟩ := by
  unfold ChatAPI_init
  rw [get_required_env_err env _ h]
  rfl

/-- Construction fails on a missing deployment-name variable. -/
theorem init_err2 (env : String → Option String) (sdk : SDKEffects)
    (h1 : envPresentB env "AZURE_OPENAI_ENDPOINT" = true)
    (h2 : envPresentB env "AZURE_OPENAI_DEPLOYMENT_NAME" = false) :
    ChatAPI_init env sdk = Except.error
      ⟨"ValueError", "Missing required environment variable: " ++ "AZURE_OPENAI_DEPLOYMENT_NAME"⟩ := by
  obtain ⟨s1, hs1⟩ := get_required_env_ok env _ h1
  unfold ChatAPI_init
  rw [hs1, get_required_env_err env _ h2]
  rfl

/-- Construction fails on a missing tenant-id variable, wrapped by
`_initialize_client`'s blanket `except`. -/
theorem init_err3 (env : String → Option String) (sdk : SDKEffects)
    (h1 : envPresentB env "AZURE_OPENAI_ENDPOINT" = true)
    (h2 : envPresentB env "AZURE_OPENAI_DEPLOYMENT_NAME" = true)
    (h3 : envPresentB env "AZURE_TENANT_ID" = false) :
    ChatAPI_init env sdk = Except.error ⟨"Exception",
      "Failed to initialize Azure OpenAI client: " ++
        ("Missing required environment variable: " ++ "AZURE_TENANT_ID")⟩ := by
  obtain ⟨s1, hs1⟩ := get_required_env_ok env _ h1
  obtain ⟨s2, hs2⟩ := get_required_env_ok env _ h2
  unfold ChatAPI_init init_client
  rw [hs1, hs2, get_required_env_err env _ h3]
  rfl

/-- Construction fails on a missing client-id variable. -/
theorem init_err4 (env : String → Option String) (sdk : SDKEffects)
    (h1 : envPresentB env "AZURE_OPENAI_ENDPOINT" = true)
    (h2 : envPresentB env "AZURE_OPENAI_DEPLOYMENT_NAME" = true)
    (h3 : envPresentB env "AZURE_TENANT_ID" = true)
    (h4 : envPresentB env "AZURE_CLIENT_ID" = false) :
    ChatAPI_init env sdk = Except.error ⟨"Exception",
      "Failed to initialize Azure OpenAI client: " ++
        ("Missing required environment variable: " ++ "AZURE_CLIENT_ID")⟩ := by
  obtain ⟨s1, hs1⟩ := get_required_env_ok env _ h1
  obtain ⟨s2, hs2⟩ := get_required_env_ok env _ h2
  obtain ⟨s3, hs3⟩ := get_required_env_ok env _ h3
  unfold ChatAPI_init init_client
  rw [hs1, hs2, hs3, get_required_env_err env _ h4]
  rfl

/-- Construction fails on a missing client-secret variable. -/
theorem init_err5 (env : String → Option String) (sdk : SDKEffects)
    (h1 : envPresentB env "AZURE_OPENAI_ENDPOINT" = true)
    (h2 : envPresentB env "AZURE_OPENAI_DEPLOYMENT_NAME" = true)
    (h3 : envPresentB env "AZURE_TENANT_ID" = true)
    (h4 : envPresentB env "AZURE_CLIENT_ID" = true)
    (h5 : envPresentB env "AZURE_CLIENT_SECRET" = false) :
    ChatAPI_init env sdk = Except.error ⟨"Exception",
      "Failed to initialize Azure OpenAI client: " ++
        ("Missing required environment variable: " ++ "AZURE_CLIENT_SECRET")⟩ := by
  obtain ⟨s1, hs1⟩ := get_required_env_ok env _ h1
  obtain ⟨s2, hs2⟩ := get_required_env_ok env _ h2
  obtain ⟨s3, hs3⟩ := get_required_env_ok env _ h3
  obtain ⟨s4, hs4⟩ := get_required_env_ok env _ h4
  unfold ChatAPI_init init_client
  rw [hs1, hs2, hs3, hs4, get_required_env_err env _ h5]
  rfl

/-! ### Claim theorems -/

/-- Claim C1 (code_bug evidence): on the spec's own example — `POST /chat`
with `user_message = "Hello"` against a healthy upstream returning one
choice with content `"Hi there!"` — `create_chat_completion` does not
return that content: the extraction at src/api.py:113 accesses `.message`
on the choices *list*, raising `AttributeError`, so the operation returns
the error record and the HTTP boundary answers 500, not 200 with the
content. -/
theorem success_path_returns_error_record :
    create_chat_completion (apiWith fun _ => Except.ok (mkCompletion ["Hi there!"]))
        Except.ok "Hello" Option.none (kwargsOfRequest reqHello) =
      errDict ⟨"AttributeError", noAttrMsg "list" "message"⟩ ∧
    chat_endpoint (apiWith fun _ => Except.ok (mkCompletion ["Hi there!"])) Except.ok reqHello =
      HttpOutcome.httpError 500
        (PyVal.str ("500: " ++ pyStr (errDict ⟨"AttributeError", noAttrMsg "list" "message"⟩))) :=
  ⟨rfl, rfl⟩

/-- Claim C2 (code_bug evidence): with an upstream returning zero choices,
the Gateway does not return the "No content returned" sentinel: the same
`.message` access on the (empty) choices list raises `AttributeError`, an
error record *is* produced, and the boundary answers 500. -/
theorem zero_choices_returns_error_record_not_sentinel :
    create_chat_completion (apiWith fun _ => Except.ok (mkCompletion []))
        Except.ok "Hello" Option.none (kwargsOfRequest reqHello) =
      errDict ⟨"AttributeError", noAttrMsg "list" "message"⟩ ∧
    chat_endpoint (apiWith fun _ => Except.ok (mkCompletion [])) Except.ok reqHello =
      HttpOutcome.httpError 500
        (PyVal.str ("500: " ++ pyStr (errDict ⟨"AttributeError", noAttrMsg "list" "message"⟩))) :=
  ⟨rfl, rfl⟩

/-- Claim C3 counterexample: when the upstream raises
`RateLimitError("Too many requests")`, the `POST /chat` response is *not*
status 500 with the error-record payload as the detail — the endpoint's
blanket `except Exception` intercepts its own `HTTPException` and
stringifies it, so the detail is a string, not the record. -/
theorem error_payload_not_carried_verbatim :
    chat_endpoint (apiWith fun _ => Except.error ⟨"RateLimitError", "Too many requests"⟩)
        Except.ok reqHello ≠
      HttpOutcome.httpError 500 (errDict ⟨"RateLimitError", "Too many requests"⟩) := by
  intro h
  rw [show chat_endpoint (apiWith fun _ => Except.error ⟨"RateLimitError", "Too many requests"⟩)
        Except.ok reqHello =
      HttpOutcome.httpError 500 (PyVal.str ("500: " ++
        pyStr (errDict ⟨"RateLimitError", "Too many requests"⟩))) from rfl] at h
  simp [errDict] at h

/-- Claim C3 (amended): for every upstream exception of kind `K` with
message `M`, `create_chat_completion` returns the record
`\x7berror: M, type: K\x7d`, and the `POST /chat` boundary responds with
status 500 whose detail is the *string form* of the intercepted
`HTTPException` carrying that record — `"500: "` followed by the record's
Python `str()` rendering — because `HTTPException` is itself caught by the
endpoint's blanket `except Exception`. -/
theorem error_record_and_stringified_500 (K M : String) (jl : PyVal → Py PyVal)
    (u : String) (s : Option String) (k : Kwargs) (req : ChatRequest) :
    create_chat_completion (apiWith fun _ => Except.error ⟨K, M⟩) jl u s k =
      errDict ⟨K, M⟩ ∧
    chat_endpoint (apiWith fun _ => Except.error ⟨K, M⟩) jl req =
      HttpOutcome.httpError 500 (PyVal.str ("500: " ++ pyStr (errDict ⟨K, M⟩))) :=
  ⟨rfl, rfl⟩

/-- Claim C4: in every assembled message list, the first entry's text is
the supplied `system_message` verbatim when it is present and non-empty,
and the fixed default persona text otherwise. -/
theorem system_message_verbatim_or_default (u : String) (s : Option String) :
    (∀ t, s = some t → t ≠ "" →
      (build_messages u s).head? =
        some { role := "system", content := [{ type := "text", text := t }] }) ∧
    ((s = Option.none ∨ s = some "") →
      (build_messages u s).head? =
        some { role := "system", content := [{ type := "text", text := defaultSystemText }] }) := by
  constructor
  · rintro t rfl ht
    have hb : pyTruthyOptStr (some t) = true := bne_iff_ne.mpr ht
    simp [build_messages, hb]
  · rintro (rfl | rfl) <;> simp [build_messages, pyTruthyOptStr]

/-- Claim C4 witness: with `system_message = "Be terse."`, the first
assembled entry carries exactly that text. -/
theorem system_message_verbatim_or_default_witness :
    (build_messages "Hello" (some "Be terse.")).head? =
      some { role := "system", content := [{ type := "text", text := "Be terse." }] } :=
  (system_message_verbatim_or_default "Hello" (some "Be terse.")).1 "Be terse." rfl (by decide)

/-- Claim C5: for every user message and optional system message, the
assembled message list has exactly two entries, roles `[system, user]` in
that order. -/
theorem messages_exactly_system_then_user (u : String) (s : Option String) :
    (build_messages u s).length = 2 ∧
    (build_messages u s).map Message.role = ["system", "user"] := by
  simp only [build_messages]
  split <;> simp

/-- Claim C6: `create_chat_completion` is total with respect to
exceptions: for every input and every behaviour of the upstream call and
of `json.loads`, it returns a value — the success payload when its `try`
body returns one, and otherwise the error record carrying the raised
exception's message text (`str(e)`) and kind name (`type(e).__name__`) —
and never propagates an exception (its result type is a plain value, not a
raising computation). -/
theorem create_chat_completion_never_raises (api : ChatAPIState) (jl : PyVal → Py PyVal)
    (u : String) (s : Option String) (k : Kwargs) :
    (∃ v, create_body api jl u s k = Except.ok v ∧
      create_chat_completion api jl u s k = v) ∨
    (∃ e, create_body api jl u s k = Except.error e ∧
      create_chat_completion api jl u s k =
        PyVal.dict [("error", PyVal.str e.msg), ("type", PyVal.str e.type)]) := by
  cases h : create_body api jl u s k with
  | ok v => exact Or.inl ⟨v, rfl, by simp [create_chat_completion, h]⟩
  | error e => exact Or.inr ⟨e, rfl, by simp [create_chat_completion, h, errDict]⟩

/-- Claim C7 counterexample: a `POST /chat` body whose `user_message` is
the empty string is *not* rejected by schema validation — it validates
successfully, and (second conjunct, via a probe upstream that echoes the
user text it received) the empty user message reaches the Gateway's
`create_chat_completion`. -/
theorem empty_user_message_accepted :
    validate_chat_request bodyEmptyUser = Except.ok { user_message := "" } ∧
    route_chat (apiWith probeClient) Except.ok bodyEmptyUser =
      HttpOutcome.httpError 500 (PyVal.str ("500: " ++ pyStr (errDict ⟨"Probe", ""⟩))) :=
  ⟨rfl, rfl⟩

/-- Claim C7 (amended): schema validation at the HTTP boundary rejects a
body with no `user_message` string, but it imposes no minimum length:
every present string value, the empty string included, is accepted and
passed to the Gateway unchanged. -/
theorem user_message_schema_accepts_any_string (body : RawBody) :
    (body.user_message = Option.none →
      ∃ ve, validate_chat_request body = Except.error ve) ∧
    (∀ u, body.user_message = some u →
      ∃ r, validate_chat_request body = Except.ok r ∧ r.user_message = u) := by
  constructor
  · intro h
    unfold validate_chat_request
    rw [h]
    exact ⟨_, rfl⟩
  · intro u h
    unfold validate_chat_request
    rw [h]
    exact ⟨_, rfl, rfl⟩

/-- Claim C7 amended-theorem witness: the empty-string body validates. -/
theorem user_message_schema_accepts_any_string_witness :
    ∃ r, validate_chat_request bodyEmptyUser = Except.ok r ∧ r.user_message = "" :=
  (user_message_schema_accepts_any_string bodyEmptyUser).2 "" rfl

/-- Claim C8: for every environment and SDK behaviour, if any of the five
required configuration variables is absent or empty, `ChatAPI`
construction raises an error whose message names a missing variable; and
construction succeeds only when all five are set and non-empty. -/
theorem init_requires_all_env_vars (env : String → Option String) (sdk : SDKEffects) :
    ((∃ v ∈ requiredVars, envPresentB env v = false) →
      ∃ e, ChatAPI_init env sdk = Except.error e ∧
        ∃ v ∈ requiredVars, envPresentB env v = false ∧ ∃ a, e.msg = a ++ v) ∧
    (∀ st, ChatAPI_init env sdk = Except.ok st →
      ∀ v ∈ requiredVars, envPresentB env v = true) := by
  constructor
  · intro hmiss
    rcases (Bool.eq_false_or_eq_true (envPresentB env "AZURE_OPENAI_ENDPOINT")).symm with h1 | h1
    · exact ⟨_, init_err1 env sdk h1, "AZURE_OPENAI_ENDPOINT", by simp [requiredVars], h1,
        "Missing required environment variable: ", rfl⟩
    rcases (Bool.eq_false_or_eq_true (envPresentB env "AZURE_OPENAI_DEPLOYMENT_NAME")).symm with h2 | h2
    · exact ⟨_, init_err2 env sdk h1 h2, "AZURE_OPENAI_DEPLOYMENT_NAME", by simp [requiredVars],
        h2, "Missing required environment variable: ", rfl⟩
    rcases (Bool.eq_false_or_eq_true (envPresentB env "AZURE_TENANT_ID")).symm with h3 | h3
    · exact ⟨_, init_err3 env sdk h1 h2 h3, "AZURE_TENANT_ID", by simp [requiredVars], h3,
        "Failed to initialize Azure OpenAI client: " ++ "Missing required environment variable: ",
        (String.append_assoc _ _ _).symm⟩
    rcases (Bool.eq_false_or_eq_true (envPresentB env "AZURE_CLIENT_ID")).symm with h4 | h4
    · exact ⟨_, init_err4 env sdk h1 h2 h3 h4, "AZURE_CLIENT_ID", by simp [requiredVars], h4,
        "Failed to initialize Azure OpenAI client: " ++ "Missing required environment variable: ",
        (String.append_assoc _ _ _).symm⟩
    rcases (Bool.eq_false_or_eq_true (envPresentB env "AZURE_CLIENT_SECRET")).symm with h5 | h5
    · exact ⟨_, init_err5 env sdk h1 h2 h3 h4 h5, "AZURE_CLIENT_SECRET", by simp [requiredVars],
        h5,
        "Failed to initialize Azure OpenAI client: " ++ "Missing required environment variable: ",
        (String.append_assoc _ _ _).symm⟩
    obtain ⟨v, hv, hfalse⟩ := hmiss
    simp only [requiredVars, List.mem_cons, List.not_mem_nil, or_false] at hv
    rcases hv with rfl | rfl | rfl | rfl | rfl
    · rw [h1] at hfalse; cases hfalse
    · rw [h2] at hfalse; cases hfalse
    · rw [h3] at hfalse; cases hfalse
    · rw [h4] at hfalse; cases hfalse
    · rw [h5] at hfalse; cases hfalse
  · intro st hok v hv
    have h1 : envPresentB env "AZURE_OPENAI_ENDPOINT" = true := by
      rcases Bool.eq_false_or_eq_true (envPresentB env "AZURE_OPENAI_ENDPOINT") with h | h
      · exact h
      · rw [init_err1 env sdk h] at hok; cases hok
    have h2 : envPresentB env "AZURE_OPENAI_DEPLOYMENT_NAME" = true := by
      rcases Bool.eq_false_or_eq_true (envPresentB env "AZURE_OPENAI_DEPLOYMENT_NAME") with h | h
      · exact h
      · rw [init_err2 env sdk h1 h] at hok; cases hok
    have h3 : envPresentB env "AZURE_TENANT_ID" = true := by
      rcases Bool.eq_false_or_eq_true (envPresentB env "AZURE_TENANT_ID") with h | h
      · exact h
      · rw [init_err3 env sdk h1 h2 h] at hok; cases hok
    have h4 : envPresentB env "AZURE_CLIENT_ID" = true := by
      rcases Bool.eq_false_or_eq_true (envPresentB env "AZURE_CLIENT_ID") with h | h
      · exact h
      · rw [init_err4 env sdk h1 h2 h3 h] at hok; cases hok
    have h5 : envPresentB env "AZURE_CLIENT_SECRET" = true := by
      rcases Bool.eq_false_or_eq_true (envPresentB env "AZURE_CLIENT_SECRET") with h | h
      · exact h
      · rw [init_err5 env sdk h1 h2 h3 h4 h] at hok; cases hok
    simp only [requiredVars, List.mem_cons, List.not_mem_nil, or_false] at hv
    rcases hv with rfl | rfl | rfl | rfl | rfl
    · exact h1
    · exact h2
    · exact h3
    · exact h4
    · exact h5

/-- Claim C8 witness: in an environment lacking only `AZURE_TENANT_ID`,
construction fails with an error whose message ends in that variable's
name. -/
theorem init_requires_all_env_vars_witness :
    ∃ e, ChatAPI_init envNoTenant sdkOk = Except.error e ∧
      ∃ v ∈ requiredVars, envPresentB envNoTenant v = false ∧ ∃ a, e.msg = a ++ v :=
  (init_requires_all_env_vars envNoTenant sdkOk).1
    ⟨"AZURE_TENANT_ID", by simp [requiredVars], by decide⟩

/-- Claim C9: the parameter record `create_chat_completion` sends upstream
is exactly the record the spec describes — the configured model
identifier, the assembled two-entry message list, and the generation
knobs exactly as supplied, with the defaults 800, 0.7, 0.95, 0, 0, absent,
false substituted for any knob not supplied and no clamping or range
validation — and the upstream client is invoked on precisely that
record. -/
theorem params_record_matches_spec (api : ChatAPIState) (jl : PyVal → Py PyVal)
    (u : String) (s : Option String) (k : Kwargs) :
    mkParams api.deployment (build_messages u s) k =
      specParams api.deployment (build_messages u s) k ∧
    create_body api jl u s k =
      api.client (specParams api.deployment (build_messages u s) k) >>=
        extract_response jl :=
  ⟨rfl, rfl⟩

/-- Claim C10: for every user message — the empty string and
whitespace-only strings included — the second assembled entry is the
user-role message whose text equals the input exactly; assembly never
trims, transforms, or rejects it. -/
theorem user_message_passed_verbatim (u : String) (s : Option String) :
    (build_messages u s)[1]? =
      some { role := "user", content := [{ type := "text", text := u }] } := by
  simp only [build_messages]
  split <;> rfl

end ChatbotV1
